import Mathlib

/-!
Verification of the type-beat video creator backend.

Shallow embedding of the four Python modules:
- `youtube_uploader.py` : OAuth credential records, token refresh, and the
  two-phase resumable upload (`upload_video`);
- `video_creator.py`    : image normalization geometry, the render pipeline
  (`create_video`) with its scratch-file lifecycle, and the post-encode
  output verification;
- `main.py`             : the background job pipeline (`process_video_background`)
  and its job-state record;
- `metadata_generator.py` : the pure title/tags/description generator.

External effects (file system, subprocesses, HTTP) are modelled as explicit
environment records: each fallible external step's outcome is a field of the
environment, and the embedded function reproduces the source's control flow
over those outcomes.  Timestamps are modelled as `Int` (the source compares
them with plain `<`/`>` only, so nothing depends on fractional parts).
-/

/-! ## Credential records (`user_credentials/youtube_<user>.json`) -/

/-- The JSON credential record persisted by `youtube_uploader.py`:
fields `access_token, refresh_token, token_type, expires_in, scope, created_at`. -/
structure CredsData where
  access_token : String
  refresh_token : Option String
  token_type : String
  expires_in : Int
  scope : String
  created_at : Int
deriving DecidableEq, Repr

/-- Python truthiness test `not creds_data.get("refresh_token")`:
true when the field is absent or the empty string. -/
def pyFalsyStr : Option String → Bool
  | none => true
  | some s => s = ""

/-- The expiry check in `upload_video` (youtube_uploader.py lines 132-134):
`token_age = now - creds_data["created_at"]; token_expired = token_age > creds_data["expires_in"]`. -/
def token_expired (creds : CredsData) (now : Int) : Bool :=
  now - creds.created_at > creds.expires_in

/-! ## Token refresh (`refresh_access_token`) -/

/-- The body of the token-endpoint JSON response, as read by
`refresh_access_token`: the keys the source inspects (`error`,
`access_token`, `expires_in`) plus `refresh_token`, which a real response
may carry but the source never reads. -/
structure RefreshBody where
  error : Option String
  access_token : Option String
  expires_in : Option Int
  refresh_token : Option String
deriving DecidableEq, Repr

/-- Outcome of the HTTP exchange inside `refresh_access_token`: either a
transport-level failure (an exception before any body is parsed) or a parsed
JSON body. -/
inductive RefreshResponse where
  | transportError (msg : String)
  | jsonBody (body : RefreshBody)
deriving DecidableEq, Repr

/-- `refresh_access_token` (youtube_uploader.py lines 78-117).  Input: the
stored credential record and the token-endpoint outcome; output: the value
returned to the caller (`some access_token` on success, `none` on any
failure) together with the credential record on disk when the call returns.
Every failure path returns before the `json.dump` write, so the stored
record is returned unchanged there; the success path writes back the record
with `access_token` and `created_at` replaced and `expires_in` replaced only
when the response carries one. -/
def refresh_access_token (stored : CredsData) (resp : RefreshResponse) (now : Int) :
    Option String × CredsData :=
  if pyFalsyStr stored.refresh_token then
    (none, stored)
  else
    match resp with
    | .transportError _ => (none, stored)
    | .jsonBody body =>
      if body.error.isSome then
        (none, stored)
      else
        match body.access_token with
        | none => (none, stored)
        | some a =>
          (some a,
            { stored with
              access_token := a
              created_at := now
              expires_in := body.expires_in.getD stored.expires_in })

/-! ## Image normalization geometry (`_process_image`) -/

/-- The geometric quantities computed by `_process_image`
(video_creator.py lines 41-76). -/
structure ImgGeom where
  crop_left : Nat
  crop_top : Nat
  crop_side : Nat
  square_size : Nat
  x_offset : Nat
  y_offset : Nat
  canvas_w : Nat
  canvas_h : Nat
deriving DecidableEq, Repr

/-- `_process_image`'s layout computation for a source image of width `w`
and height `h`: centered square crop of side `min w h`, resize to
`min (video_height - 100) (video_width / 2)`, paste centered on a
1920 x 1080 black canvas.  Python `//` on the non-negative values here is
`Nat` division. -/
def process_image_geom (w h : Nat) : ImgGeom :=
  let video_width := 1920
  let video_height := 1080
  let min_dimension := min w h
  let left := (w - min_dimension) / 2
  let top := (h - min_dimension) / 2
  let square_size := min (video_height - 100) (video_width / 2)
  let x_offset := (video_width - square_size) / 2
  let y_offset := (video_height - square_size) / 2
  { crop_left := left
    crop_top := top
    crop_side := min_dimension
    square_size := square_size
    x_offset := x_offset
    y_offset := y_offset
    canvas_w := video_width
    canvas_h := video_height }

/-! ## Render pipeline (`create_video`, video_creator.py) -/

/-- Observable outcome of the external `ffmpeg` encode invocation in
`_create_video_with_ffmpeg`: the process exit code and captured stderr, and
the state of the requested output file when the process has exited. -/
structure FfmpegEnv where
  returncode : Int
  stderr : String
  output_exists : Bool
  output_size : Nat
deriving DecidableEq, Repr

/-- The success dictionary returned by `_create_video_with_ffmpeg`
(and hence by `create_video`): `output_path`, `file_size`, `duration`. -/
structure RenderOk where
  output_path : String
  file_size : Nat
  duration : Int
deriving DecidableEq, Repr

/-- `_create_video_with_ffmpeg` (video_creator.py lines 109-160): a non-zero
exit raises, then the output file must exist, then its size must be at least
1000 bytes; otherwise the success dictionary is returned.  Each raise is
wrapped by the enclosing handler into the
`"FFmpeg video creation failed: ..."` message. -/
def create_video_with_ffmpeg (env : FfmpegEnv) (output_path : String) (duration : Int) :
    Except String RenderOk :=
  if env.returncode ≠ 0 then
    .error ("FFmpeg video creation failed: FFmpeg failed: " ++ env.stderr)
  else if env.output_exists = false then
    .error "FFmpeg video creation failed: Output video file was not created"
  else if env.output_size < 1000 then
    .error "FFmpeg video creation failed: Output video file is too small"
  else
    .ok { output_path := output_path, file_size := env.output_size, duration := duration }

/-- Environment for one `create_video` call: the outcome of the image
normalization step (`_process_image` either writes the scratch JPEG and
returns its path, or raises), the outcome of the `ffprobe` duration probe
(`_get_audio_duration` either returns the parsed duration or raises), and
the observable outcome of the `ffmpeg` encode. -/
structure RenderEnv where
  processImage : Except String Unit
  probe : Except String Int
  ffmpeg : FfmpegEnv
deriving Repr

/-- `create_video` (video_creator.py lines 15-39), returning the result
dictionary together with whether the per-render scratch image written by
`_process_image` still exists when the call returns.  The source's control
flow: `_process_image` (writes the scratch on success), then
`_get_audio_duration`, then `_create_video_with_ffmpeg`, then the scratch
removal — so the removal runs only when all three steps completed without
raising; a raise from the probe or encode jumps to the `except` handler,
which returns the failure dictionary without touching the scratch. -/
def create_video (env : RenderEnv) (output_path : String) :
    Except String RenderOk × Bool :=
  match env.processImage with
  | .error e => (.error ("Image processing failed: " ++ e), false)
  | .ok _ =>
    match env.probe with
    | .error e => (.error ("Failed to get audio duration: " ++ e), true)
    | .ok duration =>
      match create_video_with_ffmpeg env.ffmpeg output_path duration with
      | .error e => (.error e, true)
      | .ok r => (.ok r, false)

/-! ## Two-phase resumable upload (`upload_video`, youtube_uploader.py) -/

/-- The HTTP requests `upload_video` can issue, in order of appearance in
the source: the token-refresh branch, the resumable-upload initiation POST,
and the payload transfer PUT. -/
inductive Req where
  | tokenRefresh
  | init
  | put
deriving DecidableEq, Repr

/-- The result dictionary of `upload_video`: either
`{"success": True, "video_id", "video_url", "title"}` or
`{"success": False, "error"}`. -/
inductive UploadResult where
  | ok (video_id video_url title : String)
  | fail (error : String)
deriving DecidableEq, Repr

/-- Environment for one `upload_video` call: whether the credential file
exists, its contents, the current time, the token-endpoint outcome used if a
refresh is attempted, and the observable parts of the two platform
responses (initiation: HTTP status, body text, `location` header; transfer:
HTTP status, body text, the `id` field of the JSON body). -/
structure UploadEnv where
  credsFileExists : Bool
  stored : CredsData
  now : Int
  refreshResp : RefreshResponse
  initStatus : Int
  initBodyText : String
  initLocation : Option String
  putStatus : Int
  putBodyText : String
  putId : Option String
deriving DecidableEq, Repr

/-- The two-phase transfer inside `upload_video` (youtube_uploader.py lines
165-198), entered once an access token is in hand: one initiation POST
(non-200 status or missing `location` header is a hard failure), then one
transfer PUT (status outside {200, 201} or missing `id` in the body is a
hard failure), then the public URL is built from the returned id.  Returns
the result together with the requests issued by this phase. -/
def upload_phases (env : UploadEnv) (title : String) (accessToken : String) :
    UploadResult × List Req :=
  let _ := accessToken
  if env.initStatus ≠ 200 then
    (.fail ("Upload init failed: " ++ env.initBodyText), [Req.init])
  else
    match env.initLocation with
    | none => (.fail "No upload URL received", [Req.init])
    | some _ =>
      if env.putStatus = 200 ∨ env.putStatus = 201 then
        match env.putId with
        | none => (.fail "No video ID received from YouTube", [Req.init, Req.put])
        | some video_id =>
          (.ok video_id ("https://www.youtube.com/watch?v=" ++ video_id) title,
            [Req.init, Req.put])
      else
        (.fail ("Video upload failed: " ++ env.putBodyText), [Req.init, Req.put])

/-- `upload_video` (youtube_uploader.py lines 119-211): load the credential
file (absence is a typed failure), check expiry with `token_expired`,
refresh when expired (refresh failure short-circuits), then run the
two-phase transfer.  Returns the result dictionary together with the full
list of requests issued, in order. -/
def upload_video (env : UploadEnv) (title : String) : UploadResult × List Req :=
  if env.credsFileExists = false then
    (.fail "YouTube credentials not found", [])
  else if token_expired env.stored env.now then
    match refresh_access_token env.stored env.refreshResp env.now with
    | (none, _) => (.fail "Failed to refresh access token", [Req.tokenRefresh])
    | (some a, _) =>
      let r := upload_phases env title a
      (r.1, Req.tokenRefresh :: r.2)
  else
    upload_phases env title env.stored.access_token

/-! ## Job pipeline (`process_video_background`, main.py) -/

/-- The fields of the mutable job record in the `jobs` map that
`process_video_background` reads or writes (main.py lines 103-113 and
242-317).  Request-echo fields (`beatName`, `createdAt`, ...) are constant
throughout the background task and omitted. -/
structure Job where
  status : String
  progress : Int
  message : String
  videoPath : Option String
  youtubeUrl : Option String
  videoId : Option String
  youtubeError : Option String
  error : Option String
deriving DecidableEq, Repr

/-- The job record as created by the `/video/create` endpoint
(main.py lines 103-113) before the background task starts. -/
def initJob : Job :=
  { status := "processing"
    progress := 0
    message := "Starting video creation..."
    videoPath := none
    youtubeUrl := none
    videoId := none
    youtubeError := none
    error := none }

/-- `process_video_background` (main.py lines 242-317) as a function from
the job record at entry and the outcomes of its two fallible stages to the
job record at exit.  `render` is the dictionary returned by
`create_video` (a failure dictionary makes the task raise
`Exception(result["error"])`, caught by the handler that sets
`status = "failed"` and `error`); `credsExist` is the
`os.path.exists(youtube_creds_path)` test; `upload` is the dictionary
returned by `upload_video` (which never raises).  `output_path` is the
deterministic `videos/...` filename built before the render. -/
def process_video_background (job : Job) (render : Except String RenderOk)
    (credsExist : Bool) (upload : UploadResult) (output_path : String) : Job :=
  let j := { job with progress := 10, message := "Preparing files..." }
  let j := { j with progress := 30, message := "Creating video..." }
  match render with
  | .error e => { j with status := "failed", error := some e }
  | .ok _ =>
    let j := { j with progress := 80, message := "Video created successfully!",
                      videoPath := some output_path }
    if credsExist then
      let j := { j with progress := 90, message := "Uploading to YouTube..." }
      match upload with
      | .ok video_id video_url _ =>
        { j with progress := 100, status := "completed",
                 message := "Video uploaded to YouTube successfully!",
                 youtubeUrl := some video_url, videoId := some video_id }
      | .fail e =>
        { j with progress := 100, status := "completed",
                 message := "Video created but YouTube upload failed",
                 youtubeError := some e }
    else
      { j with progress := 100, status := "completed",
               message := "Video created successfully (YouTube not connected)" }

/-! ## Metadata generator (`metadata_generator.py`) -/

/-- Python `str.lower()` restricted to the ASCII case mapping. -/
def pyLower (s : String) : String :=
  s.map Char.toLower

/-- The order-preserving, first-occurrence deduplication loop of
`_generate_tags` (metadata_generator.py lines 62-68): `seen` accumulates the
tags already emitted. -/
def dedupFirst : List String → List String → List String
  | [], _ => []
  | t :: ts, seen =>
    if t ∈ seen then dedupFirst ts seen
    else t :: dedupFirst ts (t :: seen)

/-- `_generate_tags` (metadata_generator.py lines 24-70): the fixed tag list
headed by the lower-cased producer name, two no-space variants appended when
the artist type contains a space, then first-occurrence deduplication and
truncation to 50 entries. -/
def generate_tags (artist_type producer_name : String) : List String :=
  let artist_lower := pyLower artist_type
  let producer_lower := pyLower producer_name
  let base : List String :=
    [ producer_lower
    , artist_lower ++ " type beat"
    , "free " ++ artist_lower ++ " type beat"
    , artist_lower ++ " type beat 2025"
    , "free " ++ artist_lower ++ " type beat 2025"
    , "type beat"
    , "free type beat"
    , "type beat 2025"
    , "free type beat 2025"
    , "beat"
    , "beats"
    , "type beats"
    , "free type beats"
    , "instrumental"
    , "free instrumental"
    , "rap beat"
    , "hip hop beat"
    , "trap beat"
    , "free beat"
    , "beats to rap to"
    , "rap instrumental" ]
  let tags :=
    if artist_type.contains ' ' then
      let artist_nospace := pyLower (artist_type.replace " " "")
      base ++ [artist_nospace ++ " type beat", "free " ++ artist_nospace ++ " type beat"]
    else base
  (dedupFirst tags []).take 50

/-- `_generate_description` (metadata_generator.py lines 72-110): the
description template assembled from the purchase-link section, the first 20
tags joined by commas, and the hashtag line. -/
def generate_description (artist_type beat_name purchase_link : String)
    (tags : List String) : String :=
  let tags_text := String.intercalate "," (tags.take 20)
  let artist_hashtag := ((pyLower artist_type).replace " " "").replace "-" ""
  let hashtags :=
    "#" ++ artist_hashtag ++ "typebeat #typebeat #freetypebeat #beats #instrumental"
  let purchase_section :=
    if purchase_link ≠ "" then
      "💰 Purchase This Beat (Untagged) | " ++ purchase_link ++ "\n\n"
    else
      "💰 Purchase This Beat (Untagged) | [Add your beat store link]\n\n"
  purchase_section
    ++ "Connect with me:\n📧 Email | [Add your email]\n📱 Instagram | [Add your Instagram]\n💰 Beat Store | [Add your beat store]\n🎵 YouTube | [Add your YouTube channel]\n\n[FREE] "
    ++ artist_type ++ " Type Beat - \"" ++ beat_name ++ "\"\n\nThis is a FREE type beat inspired by "
    ++ artist_type ++ "'s style. Perfect for artists looking for high-quality instrumentals to create their next hit!\n\n🎤 FREE FOR NON-PROFIT USE\n💰 Purchase a license for commercial use\n🎧 Download link in bio\n\nTags: "
    ++ tags_text ++ "\n\n" ++ hashtags
    ++ "\n\n#music #hiphop #rap #producer #beatmaker #typebeats #freebeats"

/-- The dictionary returned by `generate_metadata`. -/
structure VideoMetadata where
  title : String
  description : String
  tags : List String
deriving DecidableEq, Repr

/-- `generate_metadata` (metadata_generator.py lines 6-22).  The Python
signature has defaults `purchase_link=""`, `producer_name="Producer"`; here
all four arguments are passed explicitly. -/
def generate_metadata (artist_type beat_name purchase_link producer_name : String) :
    VideoMetadata :=
  let title := "[FREE] " ++ artist_type ++ " Type Beat - \"" ++ beat_name ++ "\""
  let tags := generate_tags artist_type producer_name
  let description := generate_description artist_type beat_name purchase_link tags
  { title := title, description := description, tags := tags }

/-! ## Theorems -/

/-- C5: for every source image of width `w` and height `h`, `_process_image`
crops the centered square of side `min w h` at offsets `(w - s) / 2`,
`(h - s) / 2`, resizes it to side `min (1080 - 100) (1920 / 2)` (which never
exceeds 980 and never exceeds 960), and pastes it at offsets
`((1920 - side) / 2, (1080 - side) / 2)` on a canvas that is exactly
1920 x 1080. -/
theorem process_image_layout (w h : Nat) :
    (process_image_geom w h).crop_side = min w h ∧
    (process_image_geom w h).crop_left = (w - min w h) / 2 ∧
    (process_image_geom w h).crop_top = (h - min w h) / 2 ∧
    (process_image_geom w h).square_size = min (1080 - 100) (1920 / 2) ∧
    (process_image_geom w h).square_size ≤ 980 ∧
    (process_image_geom w h).square_size ≤ 960 ∧
    (process_image_geom w h).x_offset
      = (1920 - (process_image_geom w h).square_size) / 2 ∧
    (process_image_geom w h).y_offset
      = (1080 - (process_image_geom w h).square_size) / 2 ∧
    (process_image_geom w h).canvas_w = 1920 ∧
    (process_image_geom w h).canvas_h = 1080 := by
  exact ⟨rfl, rfl, rfl, rfl, Nat.min_le_left _ _, Nat.min_le_right _ _, rfl, rfl, rfl, rfl⟩

/-- C2 counterexample: a render whose image normalization succeeded (the
scratch JPEG was written) and whose duration probe then failed returns with
the scratch image still existing, contradicting the claim that the scratch
file never survives `create_video`'s return. -/
def scratchLeakEnv : RenderEnv :=
  { processImage := .ok ()
    probe := .error "FFprobe failed: invalid data"
    ffmpeg := { returncode := 0, stderr := "", output_exists := true, output_size := 5000 } }

/-- C2, counterexample: when the duration probe fails after the scratch
image was written, the scratch image still exists when `create_video`
returns (and the call returns a failure). -/
theorem create_video_scratch_leak :
    (create_video scratchLeakEnv "videos/out.mp4").2 = true ∧
    (create_video scratchLeakEnv "videos/out.mp4").1.isOk = false :=
  ⟨rfl, rfl⟩

/-- C2 amended: the scratch image is gone at return exactly when the call
succeeded or image normalization itself failed (so no scratch was ever
written); equivalently, the scratch survives iff normalization wrote it and
a later step (duration probe or encode) failed. -/
theorem create_video_scratch_lifecycle (env : RenderEnv) (p : String) :
    (create_video env p).2 = (env.processImage.isOk && !(create_video env p).1.isOk) := by
  unfold create_video
  cases env.processImage with
  | error e => rfl
  | ok u =>
    cases env.probe with
    | error e => rfl
    | ok d =>
      cases h : create_video_with_ffmpeg env.ffmpeg p d <;>
        simp [h, Except.isOk, Except.toBool]

/-- C6: `create_video` returns success only when the encoded output file
exists and is at least 1000 bytes (and the reported `file_size` is that
file's size); and with a zero encoder exit status, a missing or sub-1000-byte
output file still makes the call return a failure. -/
theorem create_video_min_output_size (env : RenderEnv) (p : String) :
    (∀ r, (create_video env p).1 = Except.ok r →
        env.ffmpeg.output_exists = true ∧ 1000 ≤ r.file_size ∧
        r.file_size = env.ffmpeg.output_size) ∧
    (env.ffmpeg.returncode = 0 →
      (env.ffmpeg.output_exists = false ∨ env.ffmpeg.output_size < 1000) →
      (create_video env p).1.isOk = false) := by
  cases hpi : env.processImage with
  | error e => exact ⟨fun r h => by simp [create_video, hpi] at h,
      fun _ _ => by simp [create_video, hpi, Except.isOk, Except.toBool]⟩
  | ok u =>
    cases hpr : env.probe with
    | error e => exact ⟨fun r h => by simp [create_video, hpi, hpr] at h,
        fun _ _ => by simp [create_video, hpi, hpr, Except.isOk, Except.toBool]⟩
    | ok d =>
      constructor
      · intro r h
        simp only [create_video, hpi, hpr] at h
        cases hcf : create_video_with_ffmpeg env.ffmpeg p d with
        | error e => simp [hcf] at h
        | ok r0 =>
          simp only [hcf, Except.ok.injEq] at h
          subst h
          unfold create_video_with_ffmpeg at hcf
          split at hcf
          · exact absurd hcf (by simp)
          · split at hcf
            · exact absurd hcf (by simp)
            · split at hcf
              · exact absurd hcf (by simp)
              · rename_i hrc hex hsize
                simp only [Except.ok.injEq] at hcf
                subst hcf
                have hs : 1000 ≤ env.ffmpeg.output_size := by omega
                exact ⟨by simpa using hex, hs, rfl⟩
      · intro hrc hbad
        simp only [create_video, hpi, hpr]
        cases hcf : create_video_with_ffmpeg env.ffmpeg p d with
        | error e => simp [hcf, Except.isOk, Except.toBool]
        | ok r0 =>
          exfalso
          unfold create_video_with_ffmpeg at hcf
          split at hcf
          · exact absurd hcf (by simp)
          · split at hcf
            · exact absurd hcf (by simp)
            · split at hcf
              · exact absurd hcf (by simp)
              · rename_i h1 hex hsize
                rcases hbad with hb | hb
                · exact hex hb
                · exact hsize hb

/-- C6 witness: a concrete render with encoder exit status 0 but a 500-byte
output file returns a failure. -/
theorem create_video_min_output_size_witness :
    (create_video
      { processImage := .ok ()
        probe := .ok 3
        ffmpeg := { returncode := 0, stderr := "", output_exists := true, output_size := 500 } }
      "videos/out.mp4").1.isOk = false :=
  (create_video_min_output_size
    { processImage := .ok ()
      probe := .ok 3
      ffmpeg := { returncode := 0, stderr := "", output_exists := true, output_size := 500 } }
    "videos/out.mp4").2 rfl (Or.inr (by decide))

/-- C3: when the render stage succeeds but the publish attempt fails, the
job finishes with `status = "completed"`, `progress = 100`, the publish
error stored in `youtubeError`, and the job-level `error` field still
unset — the publish failure is recorded separately and never marks the job
failed. -/
theorem publish_failure_nonfatal (r : RenderOk) (e p : String) :
    (process_video_background initJob (.ok r) true (.fail e) p).status = "completed" ∧
    (process_video_background initJob (.ok r) true (.fail e) p).progress = 100 ∧
    (process_video_background initJob (.ok r) true (.fail e) p).youtubeError = some e ∧
    (process_video_background initJob (.ok r) true (.fail e) p).error = none :=
  ⟨rfl, rfl, rfl, rfl⟩

/-- C4: every terminal job state pairs `status = "failed"` with an unset
`videoPath` and `status = "completed"` with a set `videoPath` (the stated
claim's two implications follow from this disjunction, which also shows the
final status is always one of the two terminal values). -/
theorem terminal_state_videoPath (render : Except String RenderOk) (credsExist : Bool)
    (upload : UploadResult) (p : String) :
    ((process_video_background initJob render credsExist upload p).status = "failed" ∧
     (process_video_background initJob render credsExist upload p).videoPath = none) ∨
    ((process_video_background initJob render credsExist upload p).status = "completed" ∧
     (process_video_background initJob render credsExist upload p).videoPath = some p) := by
  cases render with
  | error e => exact Or.inl ⟨rfl, rfl⟩
  | ok r =>
    cases credsExist with
    | false => exact Or.inr ⟨rfl, rfl⟩
    | true =>
      cases upload with
      | ok a b c => exact Or.inr ⟨rfl, rfl⟩
      | fail e => exact Or.inr ⟨rfl, rfl⟩

/-- C7: every failure path of `refresh_access_token` — a missing (or empty)
refresh token, a transport failure, or a token-endpoint response carrying an
`error` key — returns the typed failure `none` and leaves the stored
credential record exactly as it was (no write happens). -/
theorem refresh_failure_no_write (stored : CredsData) (resp : RefreshResponse) (now : Int)
    (h : pyFalsyStr stored.refresh_token = true
       ∨ (∃ m, resp = RefreshResponse.transportError m)
       ∨ (∃ b, resp = RefreshResponse.jsonBody b ∧ b.error.isSome = true)) :
    refresh_access_token stored resp now = (none, stored) := by
  unfold refresh_access_token
  rcases h with h | ⟨m, rfl⟩ | ⟨b, rfl, hb⟩
  · simp [h]
  · by_cases hp : pyFalsyStr stored.refresh_token <;> simp [hp]
  · by_cases hp : pyFalsyStr stored.refresh_token <;> simp [hp, hb]

/-- C7 witness: a stored record without a refresh token, facing a response
that even offers a fresh access token, still yields the typed failure and an
unchanged record. -/
theorem refresh_failure_no_write_witness :
    refresh_access_token
      { access_token := "old", refresh_token := none, token_type := "Bearer",
        expires_in := 3599, scope := "youtube.upload", created_at := 100 }
      (RefreshResponse.jsonBody
        { error := none, access_token := some "new", expires_in := some 3600,
          refresh_token := some "fresh" })
      500
    = (none,
      { access_token := "old", refresh_token := none, token_type := "Bearer",
        expires_in := 3599, scope := "youtube.upload", created_at := 100 }) :=
  refresh_failure_no_write _ _ 500 (Or.inl rfl)

/-- C10: a successful `refresh_access_token` writes back a record whose
`access_token` is the fresh token, whose `created_at` is the refresh time,
and whose `expires_in` is the response's value when present (the stored one
otherwise), while `refresh_token`, `token_type` and `scope` are written back
unchanged — in particular a `refresh_token` carried by the response is never
stored. -/
theorem refresh_success_frame (stored : CredsData) (body : RefreshBody) (now : Int)
    (a : String) (s' : CredsData)
    (h : refresh_access_token stored (RefreshResponse.jsonBody body) now = (some a, s')) :
    s'.access_token = a ∧ s'.created_at = now ∧
    s'.expires_in = body.expires_in.getD stored.expires_in ∧
    s'.refresh_token = stored.refresh_token ∧
    s'.token_type = stored.token_type ∧
    s'.scope = stored.scope := by
  unfold refresh_access_token at h
  by_cases hp : pyFalsyStr stored.refresh_token
  · simp [hp] at h
  · simp only [hp, Bool.false_eq_true, if_false] at h
    by_cases he : body.error.isSome
    · simp [he] at h
    · simp only [he, Bool.false_eq_true, if_false] at h
      cases hA : body.access_token with
      | none => simp [hA] at h
      | some a0 =>
        simp only [hA, Prod.mk.injEq, Option.some.injEq] at h
        obtain ⟨h1, h2⟩ := h
        subst h1
        subst h2
        exact ⟨rfl, rfl, rfl, rfl, rfl, rfl⟩

/-- C10 witness: a concrete successful refresh whose response carries a new
refresh token; the written record keeps the old refresh token, token type
and scope, and takes the new access token, timestamp and lifetime. -/
theorem refresh_success_frame_witness :
    ({ access_token := "NEWAT", refresh_token := some "KEEP", token_type := "Bearer",
       expires_in := 1234, scope := "youtube.upload", created_at := 777 } : CredsData).access_token
        = "NEWAT" ∧
    ({ access_token := "NEWAT", refresh_token := some "KEEP", token_type := "Bearer",
       expires_in := 1234, scope := "youtube.upload", created_at := 777 } : CredsData).created_at
        = 777 ∧
    ({ access_token := "NEWAT", refresh_token := some "KEEP", token_type := "Bearer",
       expires_in := 1234, scope := "youtube.upload", created_at := 777 } : CredsData).expires_in
        = (Option.getD (some 1234) 3599) ∧
    ({ access_token := "NEWAT", refresh_token := some "KEEP", token_type := "Bearer",
       expires_in := 1234, scope := "youtube.upload", created_at := 777 } : CredsData).refresh_token
        = ({ access_token := "old", refresh_token := some "KEEP", token_type := "Bearer",
             expires_in := 3599, scope := "youtube.upload", created_at := 100 } : CredsData).refresh_token ∧
    ({ access_token := "NEWAT", refresh_token := some "KEEP", token_type := "Bearer",
       expires_in := 1234, scope := "youtube.upload", created_at := 777 } : CredsData).token_type
        = ({ access_token := "old", refresh_token := some "KEEP", token_type := "Bearer",
             expires_in := 3599, scope := "youtube.upload", created_at := 100 } : CredsData).token_type ∧
    ({ access_token := "NEWAT", refresh_token := some "KEEP", token_type := "Bearer",
       expires_in := 1234, scope := "youtube.upload", created_at := 777 } : CredsData).scope
        = ({ access_token := "old", refresh_token := some "KEEP", token_type := "Bearer",
             expires_in := 3599, scope := "youtube.upload", created_at := 100 } : CredsData).scope :=
  refresh_success_frame
    { access_token := "old", refresh_token := some "KEEP", token_type := "Bearer",
      expires_in := 3599, scope := "youtube.upload", created_at := 100 }
    { error := none, access_token := some "NEWAT", expires_in := some 1234,
      refresh_token := some "NEWRT" }
    777 "NEWAT"
    { access_token := "NEWAT", refresh_token := some "KEEP", token_type := "Bearer",
      expires_in := 1234, scope := "youtube.upload", created_at := 777 }
    (by decide)

/-- The two-phase transfer issues either just the initiation request or the
initiation followed by the single transfer. -/
theorem upload_phases_trace (env : UploadEnv) (t a : String) :
    (upload_phases env t a).2 = [Req.init] ∨
    (upload_phases env t a).2 = [Req.init, Req.put] := by
  unfold upload_phases
  split
  · exact Or.inl rfl
  · split
    · exact Or.inl rfl
    · split
      · split
        · exact Or.inr rfl
        · exact Or.inr rfl
      · exact Or.inr rfl

/-- C8: one `upload_video` invocation issues at most one initiation request
and at most one transfer request, on every path. -/
theorem upload_video_single_shot (env : UploadEnv) (t : String) :
    (upload_video env t).2.count Req.init ≤ 1 ∧
    (upload_video env t).2.count Req.put ≤ 1 := by
  unfold upload_video
  split
  · simp
  · split
    · split
      · simp
      · rename_i a s hmatch
        rcases upload_phases_trace env t a with h | h <;>
          simp [h, List.count_cons, List.count_nil]
    · rcases upload_phases_trace env t env.stored.access_token with h | h <;>
        simp [h, List.count_cons, List.count_nil]

/-- C1 amended: with the credential file present, `upload_video` takes its
refresh branch (treats the stored record as expired) if and only if
`now - created_at > expires_in` — a strict inequality, not the claimed
`now - created_at ≥ expires_in`. -/
theorem upload_expiry_check_strict (env : UploadEnv) (t : String)
    (h : env.credsFileExists = true) :
    Req.tokenRefresh ∈ (upload_video env t).2 ↔
      env.now - env.stored.created_at > env.stored.expires_in := by
  have hph : ∀ a, Req.tokenRefresh ∉ (upload_phases env t a).2 := by
    intro a
    rcases upload_phases_trace env t a with h' | h' <;> simp [h']
  unfold upload_video
  rw [h]
  by_cases he : token_expired env.stored env.now
  · simp only [he, if_true, Bool.true_eq_false, if_false]
    constructor
    · intro _
      have := of_decide_eq_true he
      exact this
    · intro _
      split
      · exact List.mem_singleton.mpr rfl
      · exact List.mem_cons_self _ _
  · simp only [he, Bool.false_eq_true, if_false]
    constructor
    · intro hmem
      exact absurd hmem (hph env.stored.access_token)
    · intro hgt
      exact absurd (decide_eq_true hgt) he

/-- C1 witness: a record issued at time 0 with a one-hour lifetime, consulted
at time 5000, is treated as expired: the refresh branch runs. -/
theorem upload_expiry_check_strict_witness :
    Req.tokenRefresh ∈
      (upload_video
        { credsFileExists := true
          stored := { access_token := "tok", refresh_token := some "rt",
                      token_type := "Bearer", expires_in := 3600,
                      scope := "youtube.upload", created_at := 0 }
          now := 5000
          refreshResp := RefreshResponse.jsonBody
            { error := none, access_token := some "new", expires_in := some 3600,
              refresh_token := none }
          initStatus := 200, initBodyText := "", initLocation := some "loc"
          putStatus := 200, putBodyText := "", putId := some "vid" }
        "some title").2 :=
  (upload_expiry_check_strict _ "some title" rfl).mpr (by decide)

/-- C1 counterexample: at the exact boundary `now - created_at = expires_in`
the claimed rule (`≥`, so expired) disagrees with the code: `upload_video`
does not take the refresh branch because the source compares with a strict
`>` (youtube_uploader.py line 134). -/
theorem upload_expiry_check_boundary :
    ¬ (Req.tokenRefresh ∈
        (upload_video
          { credsFileExists := true
            stored := { access_token := "tok", refresh_token := some "rt",
                        token_type := "Bearer", expires_in := 3600,
                        scope := "youtube.upload", created_at := 0 }
            now := 3600
            refreshResp := RefreshResponse.jsonBody
              { error := none, access_token := some "new", expires_in := some 3600,
                refresh_token := none }
            initStatus := 200, initBodyText := "", initLocation := some "loc"
            putStatus := 200, putBodyText := "", putId := some "vid" }
          "some title").2
      ↔ ((3600 : Int) - 0 ≥ 3600)) := by
  decide

/-- The first-occurrence deduplication loop emits no duplicates and nothing
already in `seen`. -/
theorem dedupFirst_nodup_and_disjoint (l : List String) (seen : List String) :
    (dedupFirst l seen).Nodup ∧ ∀ x ∈ dedupFirst l seen, x ∉ seen := by
  induction l generalizing seen with
  | nil => exact ⟨List.nodup_nil, by simp [dedupFirst]⟩
  | cons t ts ih =>
    by_cases h : t ∈ seen
    · rw [dedupFirst, if_pos h]
      exact ih seen
    · rw [dedupFirst, if_neg h]
      obtain ⟨hnd, hmem⟩ := ih (t :: seen)
      refine ⟨List.nodup_cons.mpr ⟨?_, hnd⟩, ?_⟩
      · intro hx
        exact hmem t hx (List.mem_cons_self t seen)
      · intro x hx
        rcases List.mem_cons.mp hx with rfl | hx'
        · exact h
        · intro hxs
          exact hmem x hx' (List.mem_cons_of_mem t hxs)

/-- On a list whose head is not in `seen`, deduplication keeps that head
first. -/
theorem dedupFirst_cons_head (t : String) (ts : List String) :
    dedupFirst (t :: ts) [] = t :: dedupFirst ts [t] := by
  rw [dedupFirst, if_neg (List.not_mem_nil t)]

/-- C9: for all arguments, `generate_metadata` returns the title
`[FREE] {artist} Type Beat - "{beat}"`, and a tag list without duplicates,
of at most 50 entries, whose first entry is the lower-cased producer name.
Determinism in the arguments is immediate: the embedding is a total
function. -/
theorem generate_metadata_spec (artist beat purchase producer : String) :
    (generate_metadata artist beat purchase producer).title
      = "[FREE] " ++ artist ++ " Type Beat - \"" ++ beat ++ "\"" ∧
    (generate_metadata artist beat purchase producer).tags.Nodup ∧
    (generate_metadata artist beat purchase producer).tags.length ≤ 50 ∧
    (generate_metadata artist beat purchase producer).tags.head?
      = some (pyLower producer) := by
  refine ⟨rfl, ?_, ?_, ?_⟩
  · show (generate_tags artist producer).Nodup
    unfold generate_tags
    exact ((dedupFirst_nodup_and_disjoint _ []).1).sublist (List.take_sublist _ _)
  · exact List.length_take_le _ _
  · show (generate_tags artist producer).head? = some (pyLower producer)
    unfold generate_tags
    by_cases h : artist.contains ' ' <;>
      simp only [h, Bool.false_eq_true, if_true, if_false, List.cons_append] <;>
      rw [dedupFirst_cons_head] <;> rfl
